import Mathlib

/-!
Shallow embedding of the calcium-imaging analysis pipeline
(`single_fov_analysis.py` and `vasc_occ_analysis.py` of
python-ca-analysis-bloodflow), together with theorems settling the
specification claims about it.

Numeric dF/F values are modelled as rationals; 2-D numpy arrays as lists of
rows; the directory holding persisted `.nc` files as an association list from
file name to file content.
-/

/-- Metadata of a single FOV, as consumed by `SingleFovParser`
(fields of `FluoMetadata` read in `single_fov_analysis.py`). -/
structure FluoMetadata where
  fps : ℚ
  start_time : ℚ
  timestamps : List ℚ
  mouse_id : String
  fov : String
  condition : String
  day : ℕ
  fname : String
deriving Repr, DecidableEq

/-- Model of the labeled `xr.DataArray` stored in `fluo_analyzed` by
`SingleFovParser.parse`: the raw data cube with its dimension names,
coordinates and the `fps` / `stim_window` attributes. -/
structure DataArray where
  data : List (List (List ℚ))
  dims : List String
  neuron : List ℕ
  time : List ℚ
  epoch : List String
  fps : ℚ
  stim_window : ℚ
deriving Repr, DecidableEq

/-- Second element of `np.shape` for a 2-D array modelled as a list of
(equal-length) rows: the length of the first row. -/
def shape1 (t : List (List ℚ)) : ℕ := (t.headD []).length

/-- `np.atleast_3d` on a 2-D array of shape (n, t): result has shape
(n, t, 1), each scalar becoming a singleton innermost list. -/
def atleast_3d (t : List (List ℚ)) : List (List (List ℚ)) :=
  t.map (fun row => row.map (fun v => [v]))

/-- The `try: if not self.fluo_trace: self.fluo_trace = np.array([])`
`except ValueError: pass` guard at the top of `parse`, using numpy
truthiness of the tensor: an array with more than one element raises
`ValueError` (caught, tensor kept); an array with exactly one element is
falsy iff that element is zero; an empty array is falsy.  A falsy tensor is
replaced by the empty array `np.array([])`. -/
def truthinessGuard (t : List (List ℚ)) : List (List ℚ) :=
  match t.flatten with
  | [] => []
  | [v] => if v = 0 then [] else t
  | _ => t

/-- `SingleFovParser.parse` (calcium_bflow_analysis/single_fov_analysis.py).
The trace first passes the numpy-truthiness guard (`truthinessGuard`); the
resulting `fluo_analyzed` attribute is `none` exactly when the Python code
sets it to `None`.  The `with_analog=True` branch multiplies the
`AnalogTraceAnalyzer` by the trace; that code lives in `analog_trace.py`,
which is outside the analyzed sources, so the branch is abstracted by the
`analogAlign` argument.  The claims settled here only concern the guard,
the zero-cell short-circuit and the `with_analog=False` branch, all of
which are fully embedded. -/
def parse (fluoTrace : List (List ℚ)) (withAnalog : Bool) (md : FluoMetadata)
    (analogAlign : List (List ℚ) → FluoMetadata → DataArray) : Option DataArray :=
  let ft := truthinessGuard fluoTrace
  if ft.length = 0 then
    none
  else if withAnalog then
    some (analogAlign ft md)
  else
    some ⟨atleast_3d ft,
          ["neuron", "time", "epoch"],
          List.range ft.length,
          (List.range (shape1 ft)).map (fun k => (k : ℚ) / md.fps),
          ["spont"],
          md.fps,
          3 / 2⟩

/-- Model of the NetCDF file written by
`SingleFovParser.add_metadata_and_serialize`: the 6-D data cube, the
dimension names (the keys of the `coords` dict, in insertion order), the
coordinate values, and the attached metadata (`day`, `fps`, `stim_window`). -/
structure NetCDF where
  data : List (List (List (List (List (List ℚ)))))
  dims : List String
  coord_epoch : List String
  coord_neuron : List ℕ
  coord_time : List ℚ
  coord_mouse_id : List String
  coord_fov : List String
  coord_condition : List String
  attr_day : List ℕ
  attr_fps : ℚ
  attr_stim_window : ℚ
deriving Repr, DecidableEq

/-- The name of the persisted array file for a FOV:
`str(self.metadata.fname)[:-4] + ".nc"`. -/
def ncFileName (fname : String) : String := fname.dropRight 4 ++ ".nc"

/-- The `xr.DataArray` constructed inside `add_metadata_and_serialize`:
`raw_data[..., np.newaxis, np.newaxis, np.newaxis]` with coords
`epoch, neuron, time, mouse_id, fov, condition` and attrs
`day, fps, stim_window`. -/
def buildDarr (md : FluoMetadata) (da : DataArray) : NetCDF :=
  ⟨da.data.map (fun p => p.map (fun q => q.map (fun v => [[[v]]]))),
   ["epoch", "neuron", "time", "mouse_id", "fov", "condition"],
   da.epoch,
   da.neuron,
   md.timestamps,
   [md.mouse_id],
   [md.fov],
   [md.condition],
   [md.day],
   md.fps,
   da.stim_window⟩

/-- `SingleFovParser.add_metadata_and_serialize`, acting on the directory
holding the FOV's files, modelled as an association list from file name to
content.  The glob for an existing `.nc` file becomes a name lookup; a hit
makes the `next(...)` call return (no `StopIteration`), so the method falls
through without writing.  When `fluo_analyzed` is `None`, reading `.data`
raises `AttributeError`, which is caught and the method returns without
writing.  Otherwise a single new file is appended. -/
def add_metadata_and_serialize (md : FluoMetadata) (fluoAnalyzed : Option DataArray)
    (fs : List (String × NetCDF)) : List (String × NetCDF) :=
  if fs.any (fun p => p.1 = ncFileName md.fname) then
    fs
  else
    match fluoAnalyzed with
    | none => fs
    | some da => fs ++ [(ncFileName md.fname, buildDarr md da)]

/-- `np.diff`: successive differences of a 1-D sequence. -/
def npdiff (y : List ℚ) : List ℚ := List.zipWith (fun a b => b - a) y y.tail

/-- `np.max` of a nonempty 1-D sequence (0 on the empty one). -/
def listMax : List ℚ → ℚ
  | [] => 0
  | h :: t => t.foldl max h

/-- `np.min` of a nonempty 1-D sequence (0 on the empty one). -/
def listMin : List ℚ → ℚ
  | [] => 0
  | h :: t => t.foldl min h

/-- Start index of the maximal run of zeros of `dy` containing index `i`
(meaningful when `dy[i] = 0`): walk left while the previous entry is zero. -/
def runStart (dy : List ℚ) : ℕ → ℕ
  | 0 => 0
  | i + 1 => if dy.getD i 0 = 0 then runStart dy i else i + 1

/-- Helper for `runEnd`, recursing on explicit fuel. -/
def runEndAux (dy : List ℚ) : ℕ → ℕ → ℕ
  | 0, i => i
  | fuel + 1, i =>
    if i + 1 < dy.length ∧ dy.getD (i + 1) 0 = 0 then runEndAux dy fuel (i + 1) else i

/-- End index of the maximal run of zeros of `dy` containing index `i`
(meaningful when `dy[i] = 0`): walk right while the next entry is zero. -/
def runEnd (dy : List ℚ) (i : ℕ) : ℕ := runEndAux dy dy.length i

/-- The plateau-fixing step of `peakutils.indexes`: the value of the mutated
first-order difference at index `i`.  A zero entry belongs to a maximal zero
run `[a, b]`; the run touching the left edge takes the value just right of it,
the run touching the right edge the value just left of it, and an interior
run takes the left neighbour's value strictly below its median `(a + b) / 2`
and the right neighbour's value from the median up.  All values read are
original nonzero entries of `dy`, so reading the unmutated `dy` is faithful
to the sequence of in-place writes in the library. -/
def fixDy (dy : List ℚ) (i : ℕ) : ℚ :=
  let v := dy.getD i 0
  if v ≠ 0 then v
  else
    let a := runStart dy i
    let b := runEnd dy i
    if a = 0 then dy.getD (b + 1) 0
    else if b = dy.length - 1 then dy.getD (a - 1) 0
    else if (i : ℚ) < ((a : ℚ) + (b : ℚ)) / 2 then dy.getD (a - 1) 0
    else dy.getD (b + 1) 0

/-- Stable insertion into a list sorted ascending by the first component. -/
def insertByFst (x : ℚ × ℕ) : List (ℚ × ℕ) → List (ℚ × ℕ)
  | [] => [x]
  | h :: t => if x.1 < h.1 then x :: h :: t else h :: insertByFst x t

/-- Stable ascending sort by the first component. -/
def sortByFst : List (ℚ × ℕ) → List (ℚ × ℕ)
  | [] => []
  | h :: t => insertByFst h (sortByFst t)

/-- `peaks[np.argsort(y[peaks])][::-1]`: the detected peak positions ordered
by descending height. -/
def sortByHeight (y : List ℚ) (peaks : List ℕ) : List ℕ :=
  ((sortByFst (peaks.map (fun p => (y.getD p 0, p)))).reverse).map (fun p => p.2)

/-- One step of the minimum-distance suppression loop of `peakutils.indexes`:
if the current peak is still kept (`rem peak = false`), mark the window
`[peak - minDist, peak + minDist]` as removed except the peak itself. -/
def suppressStep (minDist : ℕ) (rem : ℕ → Bool) (peak : ℕ) : ℕ → Bool :=
  if rem peak then rem
  else fun i =>
    if i = peak then false
    else if peak - minDist ≤ i ∧ i < peak + minDist + 1 then true
    else rem i

/-- The peak candidates of `peakutils.indexes` before minimum-distance
suppression: positions where the (plateau-fixed) difference goes from
positive to negative and the value exceeds the threshold.  The signs are
tested on `hstack([dy, 0])` and `hstack([0, dy])`, so the first and last
positions never qualify. -/
def peakCandidates (y : List ℚ) (thresAbs : ℚ) : List ℕ :=
  let dy := npdiff y
  (List.range y.length).filter (fun i =>
    decide (i + 1 < y.length ∧ fixDy dy i < 0 ∧
            0 < i ∧ 0 < fixDy dy (i - 1) ∧ thresAbs < y.getD i 0))

/-- `peakutils.indexes y thres min_dist` (the external peak finder called by
`VascOccAnalysis.__find_spikes`; embedded from the peakutils library source
since it is not part of this repository).  The relative threshold is scaled
by the signal's range; a totally flat signal yields no peaks; candidate
peaks are then thinned so that no two kept peaks are within `min_dist` of
each other, keeping higher peaks first. -/
def indexes (y : List ℚ) (thres : ℚ) (minDist : ℕ) : List ℕ :=
  let thresAbs := thres * (listMax y - listMin y) + listMin y
  let dy := npdiff y
  if dy.all (fun v => decide (v = 0)) then []
  else
    let pks := peakCandidates y thresAbs
    if 1 < pks.length ∧ 1 < minDist then
      let highest := sortByHeight y pks
      let remInit : ℕ → Bool := fun i => decide (i ∉ pks)
      let remF := highest.foldl (suppressStep minDist) remInit
      (List.range y.length).filter (fun i => remF i = false)
    else pks

/-- Configuration attributes of `VascOccAnalysis` used by the epoch
statistics: frame rate, the two epoch lengths in frames, and the
explicit invalid-cell list. -/
structure VascOccConfig where
  fps : ℚ
  frames_before_stim : ℕ
  len_of_epoch_in_frames : ℕ
  invalid_cells : List ℕ
deriving Repr, DecidableEq

/-- The three per-cell index sections built at the end of
`VascOccAnalysis.__find_spikes` from one cell's detected peak indices:
indices below `frames_before_stim`, indices in
`[frames_before_stim, frames_before_stim + len_of_epoch_in_frames)`, and
indices from `frames_before_stim + len_of_epoch_in_frames` on. -/
def splitSections (cfg : VascOccConfig) (idx : List ℕ) :
    List ℕ × List ℕ × List ℕ :=
  let after_stim := cfg.frames_before_stim + cfg.len_of_epoch_in_frames
  (idx.filter (fun i => decide (i < cfg.frames_before_stim)),
   idx.filter (fun i => decide (cfg.frames_before_stim ≤ i ∧ i < after_stim)),
   idx.filter (fun i => decide (after_stim ≤ i)))

/-- One row of `all_spikes`: `np.zeros_like` of the cell's trace with ones
scattered at the detected peak indices. -/
def spikeRow (len : ℕ) (idx : List ℕ) : List ℕ :=
  (List.range len).map (fun j => if j ∈ idx then 1 else 0)

/-- `VascOccAnalysis.__find_spikes`: per cell, run `peakutils.indexes` with
relative threshold 0.65 and minimum distance 7, scatter the indices into the
spike matrix, and split them into the before / during / after sections.
Returns the three section lists together with the `all_spikes` matrix. -/
def find_spikes (cfg : VascOccConfig) (dff : List (List ℚ)) :
    (List (List ℕ) × List (List ℕ) × List (List ℕ)) × List (List ℕ) :=
  let idxs := dff.map (fun cell => indexes cell (65 / 100) 7)
  ((idxs.map (fun idx => (splitSections cfg idx).1),
    idxs.map (fun idx => (splitSections cfg idx).2.1),
    idxs.map (fun idx => (splitSections cfg idx).2.2)),
   (dff.zip idxs).map (fun p => spikeRow p.1.length p.2))

/-- An input file of `VascOccAnalysis.__calc_dff`: either a readable results
file, whose loading and detrending yields a dF/F block (one row per cell), or
a corrupt/unreadable one on which `np.load` (or the detrending) raises. -/
inductive FovFile where
  | valid : List (List ℚ) → FovFile
  | corrupt : String → FovFile
deriving Repr, DecidableEq

/-- Loading one file in the `__calc_dff` loop: `np.load` plus
`detrend_df_f_auto`; raises (returns an error) on a corrupt file. -/
def loadFov : FovFile → Except String (List (List ℚ))
  | .valid d => .ok d
  | .corrupt msg => .error msg

/-- `VascOccAnalysis.__calc_dff`: iterate over the found files, load and
detrend each, and concatenate the per-file blocks along the cell axis.  The
loop body contains no exception handling, so the first raising file
propagates its error out of the whole computation. -/
def calc_dff : List FovFile → Except String (List (List ℚ))
  | [] => .ok []
  | f :: rest =>
    match loadFov f with
    | .error e => .error e
    | .ok d =>
      match calc_dff rest with
      | .error e => .error e
      | .ok ds => .ok (d ++ ds)

/-- `VascOccAnalysis.__calc_firing_rate` up to the comparison table: build the
per-cell data frame with columns `before`, `during`, `after` holding the
section lengths, drop the rows listed in `invalid_cells`, and stack it into
`split_data`, a list of (cell index, epoch name, spike count) rows. -/
def calc_firing_rate (cfg : VascOccConfig)
    (sec1 sec2 sec3 : List (List ℕ)) : List (ℕ × String × ℕ) :=
  let df := (List.range sec1.length).map (fun i =>
    (i, ((sec1.getD i []).length, (sec2.getD i []).length, (sec3.getD i []).length)))
  let df2 := df.filter (fun r => decide (r.1 ∉ cfg.invalid_cells))
  (df2.map (fun r =>
    [(r.1, "before", r.2.1), (r.1, "during", r.2.2.1), (r.1, "after", r.2.2.2)])).flatten

/-- The mutable attributes of a `VascOccAnalysis` instance that hold raw and
derived data: the dF/F matrix, the spike matrix and the stacked comparison
table. -/
structure VascOccState where
  dff : List (List ℚ)
  all_spikes : List (List ℕ)
  split_data : List (ℕ × String × ℕ)
deriving Repr, DecidableEq

/-- `VascOccAnalysis.__calc_firing_rate` as a transition on the instance
state: it only assigns `split_data`, leaving `dff` and `all_spikes` as they
were. -/
def calc_firing_rate_state (cfg : VascOccConfig)
    (sec1 sec2 sec3 : List (List ℕ)) (st : VascOccState) : VascOccState :=
  ⟨st.dff, st.all_spikes, calc_firing_rate cfg sec1 sec2 sec3⟩

/-- Look up the value reported in the stacked comparison table for a given
cell and epoch name. -/
def reportedValue (sd : List (ℕ × String × ℕ)) (cell : ℕ) (e : String) :
    Option ℕ :=
  (sd.find? (fun r => decide (r.1 = cell ∧ r.2.1 = e))).map (fun r => r.2.2)

/-- Modelled from the spec: the epoch's valid-frame duration in seconds,
frame count divided by the frame rate (for the `before` epoch,
`frames_before_stim / fps`; for `during`, `len_of_epoch_in_frames / fps`;
for `after`, the remaining frames over `fps`).  Used only to state the claim
that reported rates are counts divided by this duration. -/
def epoch_duration_secs (cfg : VascOccConfig) (e : String) (totalFrames : ℕ) : ℚ :=
  if e = "before" then (cfg.frames_before_stim : ℚ) / cfg.fps
  else if e = "during" then (cfg.len_of_epoch_in_frames : ℚ) / cfg.fps
  else ((totalFrames - cfg.frames_before_stim - cfg.len_of_epoch_in_frames : ℕ) : ℚ) / cfg.fps

/-- A concrete FOV metadata fixture used by witness theorems. -/
def mdEx : FluoMetadata :=
  ⟨381 / 25, 0, [0, 25 / 381], "mouse12", "3", "HYPER", 14, "fov3.tif"⟩

/-- A concrete stand-in for the analog-alignment product (the abstracted
`with_analog=True` branch), used by witness theorems. -/
def analogAlignEx : List (List ℚ) → FluoMetadata → DataArray :=
  fun t md =>
    ⟨atleast_3d t, ["neuron", "time", "epoch"], List.range t.length, [],
     ["spont"], md.fps, 3 / 2⟩

/-- A concrete aligned-array fixture. -/
def daEx : DataArray :=
  ⟨[[[1]]], ["neuron", "time", "epoch"], [0], [0], ["spont"], 381 / 25, 3 / 2⟩

/-- A concrete one-cell dF/F matrix whose only cell has a single clear peak
at frame 5. -/
def rowEx : List ℚ :=
  [0, 0, 0, 0, 0, 1, 0, 0, 0, 0, 0, 0, 0, 0, 0,
   0, 0, 0, 0, 0, 0, 0, 0, 0, 0, 0, 0, 0, 0, 0]

/-- A concrete configuration: fps 15.24, ten frames before the stimulus and
ten frames of stimulus epoch, no invalid cells. -/
def cfgEx : VascOccConfig := ⟨381 / 25, 10, 10, []⟩

/-- C1: on a FOV whose fluorescence tensor has zero cells, `parse`
short-circuits, setting `fluo_analyzed` to the explicit no-data result
(`none`, the model of Python's `None`) and returning without building an
aligned array. -/
theorem parse_empty_short_circuit (t : List (List ℚ)) (wa : Bool)
    (md : FluoMetadata) (f : List (List ℚ) → FluoMetadata → DataArray)
    (h : t.length = 0) : parse t wa md f = none := by
  have ht : t = [] := List.length_eq_zero.mp h
  subst ht
  rfl

/-- Witness for C1: the empty tensor triggers the short-circuit. -/
theorem parse_empty_short_circuit_witness :
    ([] : List (List ℚ)).length = 0 ∧ parse [] true mdEx analogAlignEx = none :=
  ⟨rfl, parse_empty_short_circuit [] true mdEx analogAlignEx rfl⟩

/-- Counterexample for C10: the one-cell tensor `[[0]]` (one cell, one
frame, value 0.0) is falsy under numpy truthiness, so the guard at the top
of `parse` replaces it with the empty array and `fluo_analyzed` is set to
`None` — no spont-labeled array is produced even though the tensor has at
least one cell. -/
theorem parse_spont_falsy_cex :
    ([[(0 : ℚ)]] : List (List ℚ)).length = 1
  ∧ parse [[(0 : ℚ)]] false mdEx analogAlignEx = none := by
  exact ⟨rfl, rfl⟩

/-- C10 (amended): with `with_analog = False`, for a tensor with at least
one cell that also survives the numpy-truthiness guard (it has more than
one element, or its single element is nonzero), `parse` builds a labeled
array with dims (neuron, time, epoch), the single epoch `spont`, time
coordinate frame-index / fps, and attrs `fps` and `stim_window = 1.5`. -/
theorem parse_spont_branch (t : List (List ℚ)) (md : FluoMetadata)
    (f : List (List ℚ) → FluoMetadata → DataArray) (h : t.length ≠ 0)
    (hg : truthinessGuard t = t) :
    parse t false md f
      = some ⟨atleast_3d t, ["neuron", "time", "epoch"], List.range t.length,
              (List.range (shape1 t)).map (fun k => (k : ℚ) / md.fps),
              ["spont"], md.fps, (1.5 : ℚ)⟩ := by
  simp only [parse, hg]
  simp [h]
  norm_num

/-- Witness for C10 at a one-cell, two-frame tensor (two elements, so the
truthiness check raises `ValueError` and the tensor is kept). -/
theorem parse_spont_branch_witness :
    ([[(0 : ℚ), 1]] : List (List ℚ)).length ≠ 0
  ∧ truthinessGuard [[(0 : ℚ), 1]] = [[(0 : ℚ), 1]]
  ∧ parse [[(0 : ℚ), 1]] false mdEx analogAlignEx
      = some ⟨atleast_3d [[(0 : ℚ), 1]], ["neuron", "time", "epoch"],
              List.range ([[(0 : ℚ), 1]] : List (List ℚ)).length,
              (List.range (shape1 [[(0 : ℚ), 1]])).map (fun k => (k : ℚ) / mdEx.fps),
              ["spont"], mdEx.fps, (1.5 : ℚ)⟩ :=
  ⟨by decide, rfl,
   parse_spont_branch [[(0 : ℚ), 1]] mdEx analogAlignEx (by decide) rfl⟩

/-- C2: persisting a FOV's aligned array is write-if-absent and idempotent:
when a persisted file with the FOV's `.nc` name exists, nothing is written
and the directory is unchanged; when it does not exist (and there is data),
exactly one new file is appended, never replacing an existing one; running
the serialization twice equals running it once. -/
theorem serialize_write_if_absent (md : FluoMetadata) (fa : Option DataArray)
    (fs : List (String × NetCDF)) :
    (fs.any (fun p => p.1 = ncFileName md.fname) = true →
      add_metadata_and_serialize md fa fs = fs)
  ∧ (fs.any (fun p => p.1 = ncFileName md.fname) = false →
      ∀ da, fa = some da →
        add_metadata_and_serialize md fa fs
          = fs ++ [(ncFileName md.fname, buildDarr md da)])
  ∧ add_metadata_and_serialize md fa (add_metadata_and_serialize md fa fs)
      = add_metadata_and_serialize md fa fs := by
  refine ⟨fun h => ?_, fun h da hda => ?_, ?_⟩
  · simp [add_metadata_and_serialize, h]
  · subst hda
    simp [add_metadata_and_serialize, h]
  · by_cases h : fs.any (fun p => p.1 = ncFileName md.fname) = true
    · simp [add_metadata_and_serialize, h]
    · cases fa with
      | none => simp [add_metadata_and_serialize, h]
      | some da =>
        have h1 : add_metadata_and_serialize md (some da) fs
            = fs ++ [(ncFileName md.fname, buildDarr md da)] := by
          simp [add_metadata_and_serialize, h]
        rw [h1]
        simp [add_metadata_and_serialize, List.any_append]

/-- Witness for C2: with the `.nc` file already present no write happens,
and on an empty directory a second run adds nothing beyond the first. -/
theorem serialize_write_if_absent_witness :
    ([(ncFileName mdEx.fname, buildDarr mdEx daEx)].any
        (fun p => p.1 = ncFileName mdEx.fname) = true)
  ∧ add_metadata_and_serialize mdEx (some daEx)
        [(ncFileName mdEx.fname, buildDarr mdEx daEx)]
      = [(ncFileName mdEx.fname, buildDarr mdEx daEx)]
  ∧ (([] : List (String × NetCDF)).any
        (fun p => p.1 = ncFileName mdEx.fname) = false)
  ∧ add_metadata_and_serialize mdEx (some daEx) []
      = [] ++ [(ncFileName mdEx.fname, buildDarr mdEx daEx)]
  ∧ add_metadata_and_serialize mdEx (some daEx)
        (add_metadata_and_serialize mdEx (some daEx) [])
      = add_metadata_and_serialize mdEx (some daEx) [] :=
  ⟨by decide,
   (serialize_write_if_absent mdEx (some daEx)
      [(ncFileName mdEx.fname, buildDarr mdEx daEx)]).1 (by decide),
   by decide,
   (serialize_write_if_absent mdEx (some daEx) []).2.1 (by decide) daEx rfl,
   (serialize_write_if_absent mdEx (some daEx) []).2.2⟩

/-- Counterexample for C8: at a concrete FOV the persisted array does not
have seven axes with `day` among them — it has six dimension labels and
`day` is not one of them. -/
theorem serialized_axes_cex :
    ¬ ((buildDarr mdEx daEx).dims.length = 7
        ∧ "day" ∈ (buildDarr mdEx daEx).dims) := by
  decide

/-- C8 (amended): the persisted aligned-array file embeds the six axis
labels epoch, neuron, time, mouse_id, fov and condition — `day` not among
them — and attaches `day` (as a one-element array), `fps` and `stim_window`
as metadata. -/
theorem serialized_axes_and_metadata (md : FluoMetadata) (da : DataArray) :
    (buildDarr md da).dims
        = ["epoch", "neuron", "time", "mouse_id", "fov", "condition"]
  ∧ "day" ∉ (buildDarr md da).dims
  ∧ (buildDarr md da).attr_day = [md.day]
  ∧ (buildDarr md da).attr_fps = md.fps
  ∧ (buildDarr md da).attr_stim_window = da.stim_window := by
  refine ⟨rfl, ?_, rfl, rfl, rfl⟩
  show "day" ∉ ["epoch", "neuron", "time", "mouse_id", "fov", "condition"]
  decide

/-- Witness for C8 (amended) at the concrete fixture. -/
theorem serialized_axes_and_metadata_witness :
    (buildDarr mdEx daEx).dims
        = ["epoch", "neuron", "time", "mouse_id", "fov", "condition"]
  ∧ "day" ∉ (buildDarr mdEx daEx).dims
  ∧ (buildDarr mdEx daEx).attr_day = [mdEx.day]
  ∧ (buildDarr mdEx daEx).attr_fps = mdEx.fps
  ∧ (buildDarr mdEx daEx).attr_stim_window = daEx.stim_window :=
  serialized_axes_and_metadata mdEx daEx

/-- C3: spike detection is deterministic — two runs of `__find_spikes`
(relative threshold 0.65, minimum distance 7) on identical dF/F input yield
identical section index lists and identical spike matrices.  The embedded
pass is a pure function with no random source, so equal inputs give equal
outputs. -/
theorem find_spikes_deterministic (cfg : VascOccConfig) (d1 d2 : List (List ℚ))
    (h : d1 = d2) : find_spikes cfg d1 = find_spikes cfg d2 := by
  rw [h]

/-- Witness for C3 at the concrete one-cell matrix. -/
theorem find_spikes_deterministic_witness :
    [rowEx] = [rowEx] ∧ find_spikes cfgEx [rowEx] = find_spikes cfgEx [rowEx] :=
  ⟨rfl, find_spikes_deterministic cfgEx [rowEx] [rowEx] rfl⟩

/-- C9: for any detected index list, the three sections built at the end of
`__find_spikes` form a partition: an index is detected iff it lies in one of
the sections, and no index lies in two different sections. -/
theorem sections_partition (cfg : VascOccConfig) (idx : List ℕ) (i : ℕ) :
    (i ∈ idx ↔ (i ∈ (splitSections cfg idx).1 ∨ i ∈ (splitSections cfg idx).2.1
                ∨ i ∈ (splitSections cfg idx).2.2))
  ∧ ¬ (i ∈ (splitSections cfg idx).1 ∧ i ∈ (splitSections cfg idx).2.1)
  ∧ ¬ (i ∈ (splitSections cfg idx).1 ∧ i ∈ (splitSections cfg idx).2.2)
  ∧ ¬ (i ∈ (splitSections cfg idx).2.1 ∧ i ∈ (splitSections cfg idx).2.2) := by
  simp only [splitSections, List.mem_filter, decide_eq_true_eq]
  constructor
  · constructor
    · intro hi
      rcases Nat.lt_or_ge i cfg.frames_before_stim with hb | hb
      · exact Or.inl ⟨hi, hb⟩
      · rcases Nat.lt_or_ge i (cfg.frames_before_stim + cfg.len_of_epoch_in_frames)
            with ha | ha
        · exact Or.inr (Or.inl ⟨hi, hb, ha⟩)
        · exact Or.inr (Or.inr ⟨hi, ha⟩)
    · rintro (⟨hi, _⟩ | ⟨hi, _⟩ | ⟨hi, _⟩) <;> exact hi
  · refine ⟨fun h => ?_, fun h => ?_, fun h => ?_⟩ <;> omega

/-- Witness for C9 at a concrete index list. -/
theorem sections_partition_witness :
    (5 ∈ [(5 : ℕ), 12, 25] ↔
        (5 ∈ (splitSections cfgEx [5, 12, 25]).1
        ∨ 5 ∈ (splitSections cfgEx [5, 12, 25]).2.1
        ∨ 5 ∈ (splitSections cfgEx [5, 12, 25]).2.2))
  ∧ ¬ (5 ∈ (splitSections cfgEx [5, 12, 25]).1
        ∧ 5 ∈ (splitSections cfgEx [5, 12, 25]).2.1)
  ∧ ¬ (5 ∈ (splitSections cfgEx [5, 12, 25]).1
        ∧ 5 ∈ (splitSections cfgEx [5, 12, 25]).2.2)
  ∧ ¬ (5 ∈ (splitSections cfgEx [5, 12, 25]).2.1
        ∧ 5 ∈ (splitSections cfgEx [5, 12, 25]).2.2) :=
  sections_partition cfgEx [5, 12, 25] 5

/-- Counterexample for C4: with a corrupt file between two readable ones,
`__calc_dff` propagates the load failure — the whole computation yields the
error rather than continuing with the remaining FOVs' data. -/
theorem calc_dff_abort_cex :
    calc_dff [FovFile.valid [[1]], FovFile.corrupt "unreadable npz",
              FovFile.valid [[2]]]
      = Except.error "unreadable npz"
  ∧ calc_dff [FovFile.valid [[1]], FovFile.corrupt "unreadable npz",
              FovFile.valid [[2]]]
      ≠ Except.ok [[1], [2]] := by
  refine ⟨rfl, ?_⟩
  simp [calc_dff, loadFov]

/-- C4 (amended): a failure while loading any single FOV's file is not
caught — it propagates out of the per-file loop, aborting the processing of
all remaining FOVs: whatever valid files precede or follow the corrupt one,
the whole run returns its error. -/
theorem calc_dff_error_propagates (pre : List (List (List ℚ))) (msg : String)
    (post : List FovFile) :
    calc_dff (pre.map FovFile.valid ++ FovFile.corrupt msg :: post)
      = Except.error msg := by
  induction pre with
  | nil => rfl
  | cons h t ih => simp [calc_dff, loadFov, ih]

/-- The stacked comparison table produced by the embedded pipeline on the
concrete one-cell matrix: spike detection followed by
`__calc_firing_rate`. -/
def splitDataEx : List (ℕ × String × ℕ) :=
  calc_firing_rate cfgEx (find_spikes cfgEx [rowEx]).1.1
    (find_spikes cfgEx [rowEx]).1.2.1 (find_spikes cfgEx [rowEx]).1.2.2

set_option maxRecDepth 100000 in
/-- Counterexample for C5: on the concrete matrix the one cell has exactly
one spike in the `before` epoch (10 frames at fps 15.24, a duration of
250/381 seconds), and the value reported for it in the comparison table is
the raw count 1, which differs from count divided by the epoch duration in
seconds (381/250): the claimed equality fails here. -/
theorem firing_rate_not_per_second_cex :
    reportedValue splitDataEx 0 "before" = some 1
  ∧ epoch_duration_secs cfgEx "before" rowEx.length = 250 / 381
  ∧ ¬ ((1 : ℚ) = (1 : ℚ) / epoch_duration_secs cfgEx "before" rowEx.length) := by
  refine ⟨?_, ?_, ?_⟩ <;> with_unfolding_all decide

/-- C5 (amended): the value the epoch comparison reports for a (non-invalid)
cell and epoch is that cell's raw spike count in the epoch — the length of
its section index list — not divided by the epoch's duration in seconds. -/
theorem firing_rate_reports_counts (cfg : VascOccConfig)
    (sec1 sec2 sec3 : List (List ℕ)) (i : ℕ) (h1 : i < sec1.length)
    (h2 : i ∉ cfg.invalid_cells) :
    (i, "before", (sec1.getD i []).length) ∈ calc_firing_rate cfg sec1 sec2 sec3
  ∧ (i, "during", (sec2.getD i []).length) ∈ calc_firing_rate cfg sec1 sec2 sec3
  ∧ (i, "after", (sec3.getD i []).length) ∈ calc_firing_rate cfg sec1 sec2 sec3 := by
  have hdf : (i, ((sec1.getD i []).length, (sec2.getD i []).length,
      (sec3.getD i []).length)) ∈
      ((List.range sec1.length).map (fun j =>
        (j, ((sec1.getD j []).length, (sec2.getD j []).length,
             (sec3.getD j []).length)))).filter
        (fun r => decide (r.1 ∉ cfg.invalid_cells)) := by
    rw [List.mem_filter]
    refine ⟨List.mem_map.2 ⟨i, List.mem_range.2 h1, rfl⟩, by simpa using h2⟩
  refine ⟨?_, ?_, ?_⟩ <;>
    · rw [calc_firing_rate, List.mem_flatten]
      refine ⟨_, List.mem_map.2 ⟨_, hdf, rfl⟩, by simp⟩

/-- Witness for C5 (amended) at the concrete pipeline output. -/
theorem firing_rate_reports_counts_witness :
    0 < (find_spikes cfgEx [rowEx]).1.1.length
  ∧ 0 ∉ cfgEx.invalid_cells
  ∧ (0, "before", ((find_spikes cfgEx [rowEx]).1.1.getD 0 []).length)
      ∈ splitDataEx :=
  ⟨by decide, by decide,
   (firing_rate_reports_counts cfgEx (find_spikes cfgEx [rowEx]).1.1
      (find_spikes cfgEx [rowEx]).1.2.1 (find_spikes cfgEx [rowEx]).1.2.2 0
      (by decide) (by decide)).1⟩

/-- C7: `__calc_firing_rate` drops the configured invalid cells only from
the stacked comparison table; as a transition on the instance state it
leaves the raw stored data — the dF/F matrix and the full spike matrix —
unchanged, and no row of the resulting table belongs to an invalid cell. -/
theorem invalid_cells_only_dropped_from_comparison (cfg : VascOccConfig)
    (sec1 sec2 sec3 : List (List ℕ)) (st : VascOccState) :
    (calc_firing_rate_state cfg sec1 sec2 sec3 st).dff = st.dff
  ∧ (calc_firing_rate_state cfg sec1 sec2 sec3 st).all_spikes = st.all_spikes
  ∧ ∀ r ∈ (calc_firing_rate_state cfg sec1 sec2 sec3 st).split_data,
      r.1 ∉ cfg.invalid_cells := by
  refine ⟨rfl, rfl, ?_⟩
  intro r hr
  simp only [calc_firing_rate_state, calc_firing_rate, List.mem_flatten,
    List.mem_map, List.mem_filter, decide_eq_true_eq] at hr
  obtain ⟨l, ⟨row, ⟨⟨j, hj, hrow⟩, hvalid⟩, hl⟩, hrl⟩ := hr
  subst hl
  subst hrow
  simp only [List.mem_cons, List.not_mem_nil, or_false] at hrl
  rcases hrl with h | h | h <;> (subst h; simpa using hvalid)

/-- Witness for C7 at a concrete state and section triple. -/
theorem invalid_cells_only_dropped_witness :
    (calc_firing_rate_state ⟨381 / 25, 10, 10, [1]⟩ [[5], []] [[], []] [[], []]
        ⟨[rowEx, rowEx], [[0], [0]], []⟩).dff = [rowEx, rowEx]
  ∧ (calc_firing_rate_state ⟨381 / 25, 10, 10, [1]⟩ [[5], []] [[], []] [[], []]
        ⟨[rowEx, rowEx], [[0], [0]], []⟩).all_spikes = [[0], [0]]
  ∧ (0, "before", 1) ∈ (calc_firing_rate_state ⟨381 / 25, 10, 10, [1]⟩
        [[5], []] [[], []] [[], []] ⟨[rowEx, rowEx], [[0], [0]], []⟩).split_data
  ∧ ((0 : ℕ), "before", (1 : ℕ)).1 ∉ (⟨381 / 25, 10, 10, [1]⟩ : VascOccConfig).invalid_cells :=
  ⟨(invalid_cells_only_dropped_from_comparison ⟨381 / 25, 10, 10, [1]⟩
      [[5], []] [[], []] [[], []] ⟨[rowEx, rowEx], [[0], [0]], []⟩).1,
   (invalid_cells_only_dropped_from_comparison ⟨381 / 25, 10, 10, [1]⟩
      [[5], []] [[], []] [[], []] ⟨[rowEx, rowEx], [[0], [0]], []⟩).2.1,
   by decide,
   (invalid_cells_only_dropped_from_comparison ⟨381 / 25, 10, 10, [1]⟩
      [[5], []] [[], []] [[], []] ⟨[rowEx, rowEx], [[0], [0]], []⟩).2.2
      (0, "before", 1) (by decide)⟩
